import Mathlib

/-!
Shallow embedding of the search-job pipeline of `go-splunk-rest`
(`search.go`), a Go client for the Splunk REST API.

Modelling conventions:

* `time.Time` values are modelled at second granularity as integers
  (seconds since an arbitrary epoch).  `LatestTime.Sub(EarliestTime).Seconds()`
  is then the exact integer difference and `math.Ceil(x / PARTITION_COUNT)`
  is the exact rational ceiling, written with integer floor division.
* `map[string]interface{}` result rows are modelled as association lists of
  string fields; none of the verified properties inspect row contents.
* Go `error` values are modelled as `Option String` (`none` = nil error),
  and fallible collaborator calls as `Except String`.
* The HTTP collaborators (`SearchJobCreate`, `SearchJobStatus`,
  `SearchJobResults`) and the recursive sub-searches spawned by the
  partition branch are modelled as oracles in a `SearchEnv`: each recursive
  `c.Search` call on a sub-window is an independent invocation whose
  outcome the environment supplies.
* The merge loop `for idx, res := range partitionedResults` ranges over a Go
  map; Go leaves map iteration order unspecified (and the gc runtime
  randomizes it), so the order is part of the environment (`mapOrder`).
  Any permutation of the partition indices is a possible execution.
* The polling loop of `Search` has no bound in the source; it is modelled
  with explicit fuel, `none` meaning the loop is still waiting after `fuel`
  iterations.
* `Search` additionally returns the list of effects it performed (job
  creation, status polls, sleeps, result fetch, sub-search launches), so
  that claims about which calls are issued can be stated.
-/

/-- A result row: Go `map[string]interface{}`, modelled as an association
list of string fields. -/
abbrev Row := List (String × String)

/-- Go constant `DEFAULT_MAX_COUNT = 10000`. -/
def DEFAULT_MAX_COUNT : Int := 10000

/-- Go constant `SEARCH_WAIT = 5` (seconds slept between status polls). -/
def SEARCH_WAIT : Nat := 5

/-- Go constant `PARTITION_COUNT = 5`. -/
def PARTITION_COUNT : Nat := 5

/-- Go struct `SearchOptions`.  Times are integral seconds. -/
structure SearchOptions where
  MaxCount : Int
  UseEarliestTime : Bool
  EarliestTime : Int
  UseLatestTime : Bool
  LatestTime : Int
  AllowPartition : Bool
deriving DecidableEq

/-- One element of `SearchJobStatus.Messages`: a severity type and a text. -/
structure StatusMessage where
  type : String
  text : String
deriving DecidableEq

/-- The `Content` of one element of `SearchJobStatus.Entry`
(the wrapping `Entry[i].Content` of the Go struct is flattened). -/
structure StatusEntryContent where
  isDone : Bool
  isFailed : Bool
deriving DecidableEq

/-- Go struct `SearchJobStatus`. -/
structure SearchJobStatus where
  Messages : List StatusMessage
  Entry : List StatusEntryContent
deriving DecidableEq

/-- Go method `SearchJobStatus.IsDone`, returning `(bool, error)`.

Note the faithful rendering of the Go loop
`for _, e := range s.Messages { errorMsg = fmt.Sprintf("%s: %s\n", e.Type, e.Message) }`:
the accumulator is overwritten, not appended to, on every iteration, so only
the last message survives. -/
def SearchJobStatus.IsDone (s : SearchJobStatus) : Bool × Option String :=
  match s.Entry with
  | [] => (false, none)
  | e :: _ =>
    if e.isDone && !e.isFailed then
      (true, none)
    else if e.isFailed then
      (true, some (s.Messages.foldl (fun _errorMsg m => m.type ++ ": " ++ m.text ++ "\n") ""))
    else
      (false, none)

/-- The defaulting at the top of `Search`:
`if searchOptions.MaxCount == 0 { searchOptions.MaxCount = DEFAULT_MAX_COUNT }`. -/
def withDefaultMaxCount (o : SearchOptions) : SearchOptions :=
  if o.MaxCount = 0 then
    SearchOptions.mk DEFAULT_MAX_COUNT o.UseEarliestTime o.EarliestTime
      o.UseLatestTime o.LatestTime o.AllowPartition
  else o

/-- The partition step
`d := math.Ceil((searchOptions.LatestTime.Sub(searchOptions.EarliestTime).Seconds()) / PARTITION_COUNT)`:
the ceiling of `(LatestTime - EarliestTime) / 5`, written with floor
division (`Int.fdiv a 5` is the mathematical floor of `a / 5`). -/
def partitionStep (o : SearchOptions) : Int :=
  Int.fdiv (o.LatestTime - o.EarliestTime + ((PARTITION_COUNT : Int) - 1)) (PARTITION_COUNT : Int)

/-- The window-building loop of the partition branch:
`for i := 0; i < PARTITION_COUNT; i++ { endT = startT.Add(d seconds); ...; startT = endT }`,
collecting the `(start, end)` pair passed to each spawned sub-search. -/
def partitionWindowsAux (startT d : Int) : Nat → List (Int × Int)
  | 0 => []
  | Nat.succ n =>
    let endT := startT + d
    (startT, endT) :: partitionWindowsAux endT d n

/-- The five sub-windows built by the partition branch, first start at
`EarliestTime`, step `partitionStep`. -/
def partitionWindows (o : SearchOptions) : List (Int × Int) :=
  partitionWindowsAux o.EarliestTime (partitionStep o) PARTITION_COUNT

/-- The per-partition copy of the options:
`partitionSearchOptions := searchOptions` (Go struct assignment copies the
value) followed by overwriting `EarliestTime` and `LatestTime` with the
sub-window bounds.  All other fields are taken unchanged from the parent. -/
def subOptions (o : SearchOptions) (w : Int × Int) : SearchOptions :=
  SearchOptions.mk o.MaxCount o.UseEarliestTime w.1 o.UseLatestTime w.2 o.AllowPartition

/-- Observable effects performed by one `Search` invocation. -/
inductive SearchEffect where
  | createJob (query : String) (options : SearchOptions)
  | pollStatus (sid : String)
  | sleep (seconds : Nat)
  | fetchResults (sid : String)
  | subSearchCall (query : String) (options : SearchOptions)
deriving DecidableEq

/-- The environment a `Search` invocation runs against: the HTTP
collaborators, the outcomes of recursive sub-searches, and the iteration
order of the Go map holding per-partition results. -/
structure SearchEnv where
  create : String → SearchOptions → Except String String
  polls : String → Nat → Except String SearchJobStatus
  fetch : String → Except String (List Row)
  subSearch : String → SearchOptions → List Row × Option String
  mapOrder : List Nat

/-- The polling loop of `Search`
(`for waiting { jobStatus := SearchJobStatus(sid); isDone, err := jobStatus.IsDone(); ...; time.Sleep(SEARCH_WAIT) }`),
with explicit fuel.  Outcome `none`: the loop is still waiting after `fuel`
iterations (the Go loop has no bound).  Outcome `some none`: the job is
done.  Outcome `some (some e)`: the search aborts with error `e` (either
the status call failed or `IsDone` reported a failure). -/
def pollLoop (polls : Nat → Except String SearchJobStatus) (sid : String) :
    Nat → Nat → Option (Option String) × List SearchEffect
  | 0, _ => (none, [])
  | Nat.succ fuel, n =>
    match polls n with
    | Except.error e => (some (some e), [SearchEffect.pollStatus sid])
    | Except.ok jobStatus =>
      match jobStatus.IsDone with
      | (_, some e) => (some (some e), [SearchEffect.pollStatus sid])
      | (true, none) => (some none, [SearchEffect.pollStatus sid])
      | (false, none) =>
        let rest := pollLoop polls sid fuel (n + 1)
        (rest.1, SearchEffect.pollStatus sid :: SearchEffect.sleep SEARCH_WAIT :: rest.2)

/-- The merge loop of the partition branch:
`for idx, res := range partitionedResults { if partitionedErr[idx] != nil { return results, partitionedErr[idx] }; results = append(results, res...) }`,
scanning the map in iteration order `order`, starting from the freshly
reset `results` accumulator.  Note that on error the accumulated rows of
the partitions already scanned are returned alongside the error. -/
def mergeLoop (partitionedResults : Nat → List Row) (partitionedErr : Nat → Option String) :
    List Nat → List Row → List Row × Option String
  | [], results => (results, none)
  | idx :: rest, results =>
    match partitionedErr idx with
    | some e => (results, some e)
    | none => mergeLoop partitionedResults partitionedErr rest (results ++ partitionedResults idx)

/-- Outcomes of the five recursive sub-searches
(`rec, err := c.Search(searchQuery, partitionSearchOptions)`), one per
sub-window, as supplied by the environment. -/
def partitionOutcomes (env : SearchEnv) (searchQuery : String) (searchOptions : SearchOptions) :
    List (List Row × Option String) :=
  (partitionWindows searchOptions).map fun w => env.subSearch searchQuery (subOptions searchOptions w)

/-- Contents of the `partitionedResults` map slot for index `i`. -/
def partResults (env : SearchEnv) (searchQuery : String) (searchOptions : SearchOptions)
    (i : Nat) : List Row :=
  ((partitionOutcomes env searchQuery searchOptions).getD i ([], none)).1

/-- Contents of the `partitionedErr` map slot for index `i`. -/
def partErr (env : SearchEnv) (searchQuery : String) (searchOptions : SearchOptions)
    (i : Nat) : Option String :=
  ((partitionOutcomes env searchQuery searchOptions).getD i ([], none)).2

/-- The truncation branch at the end of `Search`.  The Go source nests
`if len(results) == searchOptions.MaxCount { if AllowPartition && UseEarliestTime && UseLatestTime { ... } }`;
both conditions are checked here as one conjunction, every other path
falling through to `return results, nil`.  The second component lists the
sub-searches launched. -/
def searchPartitionPhase (env : SearchEnv) (searchQuery : String)
    (searchOptions : SearchOptions) (results : List Row) :
    (List Row × Option String) × List SearchEffect :=
  if ((results.length : Int) == searchOptions.MaxCount && searchOptions.AllowPartition &&
      searchOptions.UseEarliestTime && searchOptions.UseLatestTime) then
    (mergeLoop (partResults env searchQuery searchOptions) (partErr env searchQuery searchOptions)
        env.mapOrder [],
      (partitionWindows searchOptions).map fun w =>
        SearchEffect.subSearchCall searchQuery (subOptions searchOptions w))
  else
    ((results, none), [])

/-- The blocking `Search` function: default the max count, create the job,
poll until done or failed, fetch the results, and possibly partition.
Returns Go's `([]map[string]interface{}, error)` pair (or `none` when the
polling loop is still waiting after `fuel` iterations), together with the
effects performed. -/
def Search (env : SearchEnv) (fuel : Nat) (searchQuery : String) (searchOptions0 : SearchOptions) :
    Option (List Row × Option String) × List SearchEffect :=
  let searchOptions := withDefaultMaxCount searchOptions0
  match env.create searchQuery searchOptions with
  | Except.error e => (some ([], some e), [SearchEffect.createJob searchQuery searchOptions])
  | Except.ok sid =>
    match pollLoop (env.polls sid) sid fuel 0 with
    | (none, t1) => (none, SearchEffect.createJob searchQuery searchOptions :: t1)
    | (some (some e), t1) =>
      (some ([], some e), SearchEffect.createJob searchQuery searchOptions :: t1)
    | (some none, t1) =>
      match env.fetch sid with
      | Except.error e =>
        (some ([], some e),
          SearchEffect.createJob searchQuery searchOptions ::
            t1 ++ [SearchEffect.fetchResults sid])
      | Except.ok results =>
        let phase := searchPartitionPhase env searchQuery searchOptions results
        (some phase.1,
          SearchEffect.createJob searchQuery searchOptions ::
            t1 ++ [SearchEffect.fetchResults sid] ++ phase.2)

/-- The `(query, options)` arguments of the sub-searches launched in a
trace of effects. -/
def subCallPairs (t : List SearchEffect) : List (String × SearchOptions) :=
  t.filterMap fun e =>
    match e with
    | SearchEffect.subSearchCall q o => some (q, o)
    | _ => none

/-- The `(EarliestTime, LatestTime)` windows of the sub-searches launched
in a trace of effects. -/
def subWindows (t : List SearchEffect) : List (Int × Int) :=
  (subCallPairs t).map fun p => (p.2.EarliestTime, p.2.LatestTime)

/-- A callback invocation performed by `SearchAndExec`. -/
inductive HandlerCall where
  | onSuccessCall (rows : List Row)
  | onErrorCall (e : String)
deriving DecidableEq

/-- Go `SearchAndExec`: run `Search`; on error invoke the error handler
with that error and return; otherwise invoke the success handler with the
rows and, if it returns a non-nil error, route that error to the error
handler.  The returned list records the handler invocations in order
(`none` when the underlying `Search` never returns). -/
def SearchAndExec (env : SearchEnv) (fuel : Nat) (searchQuery : String)
    (searchOptions : SearchOptions) (onSuccess : List Row → Option String) :
    Option (List HandlerCall) :=
  match (Search env fuel searchQuery searchOptions).1 with
  | none => none
  | some (_, some err) => some [HandlerCall.onErrorCall err]
  | some (results, none) =>
    match onSuccess results with
    | some err => some [HandlerCall.onSuccessCall results, HandlerCall.onErrorCall err]
    | none => some [HandlerCall.onSuccessCall results]

/-- A concrete result row used by the concrete scenarios below. -/
def rA : Row := [("f", "a")]

/-- A second concrete result row. -/
def rB : Row := [("f", "b")]

/-- A job status reporting done and not failed. -/
def stDone : SearchJobStatus := SearchJobStatus.mk [] [StatusEntryContent.mk true false]

/-- A job status reporting neither done nor failed. -/
def stPending : SearchJobStatus := SearchJobStatus.mk [] [StatusEntryContent.mk false false]

/-- A job status whose entry list is empty. -/
def stEmptyEntry : SearchJobStatus := SearchJobStatus.mk [] []

/-- A failed job status carrying one diagnostic message. -/
def stFailed : SearchJobStatus :=
  SearchJobStatus.mk [StatusMessage.mk "FATAL" "oops"] [StatusEntryContent.mk false true]

/-- A failed job status carrying two diagnostic messages. -/
def stFailedTwoMsgs : SearchJobStatus :=
  SearchJobStatus.mk [StatusMessage.mk "FATAL" "first detail", StatusMessage.mk "ERROR" "second detail"]
    [StatusEntryContent.mk false true]

/-- Concrete options: max count 1, window from second 0 to second 10, both
bounds in use, partitioning allowed.  The partition step is then
`ceil(10 / 5) = 2` and the windows are (0,2) (2,4) (4,6) (6,8) (8,10). -/
def optsP : SearchOptions := SearchOptions.mk 1 true 0 true 10 true

/-- A fetched result list whose length equals `optsP.MaxCount`. -/
def resultsP : List Row := [rA]

/-- Sub-search outcomes: the window starting at 0 yields `rA`, the window
starting at 2 yields `rB`, the remaining windows yield nothing; all
succeed. -/
def subAllOk : String → SearchOptions → List Row × Option String :=
  fun _ o => (if o.EarliestTime = 0 then [rA] else if o.EarliestTime = 2 then [rB] else [], none)

/-- Sub-search outcomes: the window starting at 0 succeeds with `rA`, the
window starting at 2 fails with "boom", the remaining windows succeed with
nothing. -/
def subOneFails : String → SearchOptions → List Row × Option String :=
  fun _ o =>
    if o.EarliestTime = 0 then ([rA], none)
    else if o.EarliestTime = 2 then ([], some "boom")
    else ([], none)

/-- Environment whose search succeeds at the first poll, fetches
`resultsP`, whose sub-searches all succeed, with ascending map iteration
order. -/
def envOk : SearchEnv :=
  SearchEnv.mk (fun _ _ => Except.ok "sid1") (fun _ _ => Except.ok stDone)
    (fun _ => Except.ok resultsP) subAllOk [0, 1, 2, 3, 4]

/-- Like `envOk` but the sub-search on the second window fails. -/
def envFailPart : SearchEnv :=
  SearchEnv.mk (fun _ _ => Except.ok "sid1") (fun _ _ => Except.ok stDone)
    (fun _ => Except.ok resultsP) subOneFails [0, 1, 2, 3, 4]

/-- Like `envOk` but the map iteration happens to visit partition 1 before
partition 0 (Go randomizes map iteration order; this is one possible run). -/
def envSwapped : SearchEnv :=
  SearchEnv.mk (fun _ _ => Except.ok "sid1") (fun _ _ => Except.ok stDone)
    (fun _ => Except.ok resultsP) subAllOk [1, 0, 2, 3, 4]

/-- Environment whose job reports failure at every poll. -/
def envJobFailed : SearchEnv :=
  SearchEnv.mk (fun _ _ => Except.ok "sid1") (fun _ _ => Except.ok stFailed)
    (fun _ => Except.ok resultsP) subAllOk [0, 1, 2, 3, 4]

/-- Environment whose job reports neither done nor failed at every poll. -/
def envPending : SearchEnv :=
  SearchEnv.mk (fun _ _ => Except.ok "sid1") (fun _ _ => Except.ok stPending)
    (fun _ => Except.ok resultsP) subAllOk [0, 1, 2, 3, 4]

/-- Environment whose status payloads carry an empty entry list at every
poll. -/
def envEmptyEntry : SearchEnv :=
  SearchEnv.mk (fun _ _ => Except.ok "sid1") (fun _ _ => Except.ok stEmptyEntry)
    (fun _ => Except.ok resultsP) subAllOk [0, 1, 2, 3, 4]

/-- Defaulting the max count never changes `UseEarliestTime`. -/
theorem withDefaultMaxCount_UseEarliestTime (o : SearchOptions) :
    (withDefaultMaxCount o).UseEarliestTime = o.UseEarliestTime := by
  unfold withDefaultMaxCount
  split <;> rfl

/-- Defaulting the max count never changes `UseLatestTime`. -/
theorem withDefaultMaxCount_UseLatestTime (o : SearchOptions) :
    (withDefaultMaxCount o).UseLatestTime = o.UseLatestTime := by
  unfold withDefaultMaxCount
  split <;> rfl

/-- Defaulting the max count never changes `AllowPartition`. -/
theorem withDefaultMaxCount_AllowPartition (o : SearchOptions) :
    (withDefaultMaxCount o).AllowPartition = o.AllowPartition := by
  unfold withDefaultMaxCount
  split <;> rfl

/-- Defaulting the max count never changes `EarliestTime`. -/
theorem withDefaultMaxCount_EarliestTime (o : SearchOptions) :
    (withDefaultMaxCount o).EarliestTime = o.EarliestTime := by
  unfold withDefaultMaxCount
  split <;> rfl

/-- Defaulting the max count never changes `LatestTime`. -/
theorem withDefaultMaxCount_LatestTime (o : SearchOptions) :
    (withDefaultMaxCount o).LatestTime = o.LatestTime := by
  unfold withDefaultMaxCount
  split <;> rfl

/-- The effective max count is `DEFAULT_MAX_COUNT` when the caller passed
zero and the caller's value otherwise. -/
theorem withDefaultMaxCount_MaxCount (o : SearchOptions) :
    (withDefaultMaxCount o).MaxCount =
      if o.MaxCount = 0 then DEFAULT_MAX_COUNT else o.MaxCount := by
  unfold withDefaultMaxCount
  split <;> simp_all

/-- The five windows of the partition loop, written out. -/
theorem partitionWindows_explicit (o : SearchOptions) :
    partitionWindows o =
      [(o.EarliestTime, o.EarliestTime + partitionStep o),
       (o.EarliestTime + partitionStep o,
        o.EarliestTime + partitionStep o + partitionStep o),
       (o.EarliestTime + partitionStep o + partitionStep o,
        o.EarliestTime + partitionStep o + partitionStep o + partitionStep o),
       (o.EarliestTime + partitionStep o + partitionStep o + partitionStep o,
        o.EarliestTime + partitionStep o + partitionStep o + partitionStep o + partitionStep o),
       (o.EarliestTime + partitionStep o + partitionStep o + partitionStep o + partitionStep o,
        o.EarliestTime + partitionStep o + partitionStep o + partitionStep o + partitionStep o +
          partitionStep o)] := rfl

/-- Floor division `(a + 4).fdiv 5` is the rational ceiling of `a / 5`. -/
theorem fdiv_five_ceil (a : ℤ) : Int.fdiv (a + 4) 5 = ⌈(a : ℚ) / 5⌉ := by
  have hd : Int.fdiv (a + 4) 5 = (a + 4) / 5 := Int.fdiv_eq_ediv _ (by norm_num)
  have key1 : a ≤ 5 * ((a + 4) / 5) := by omega
  have key2 : 5 * ((a + 4) / 5) < a + 5 := by omega
  rw [hd, eq_comm, Int.ceil_eq_iff]
  constructor
  · rw [lt_div_iff (by norm_num : (0:ℚ) < 5)]
    have key2q : (5:ℚ) * (((a + 4) / 5 : ℤ) : ℚ) < (a:ℚ) + 5 := by exact_mod_cast key2
    linarith
  · rw [div_le_iff (by norm_num : (0:ℚ) < 5)]
    have key1q : (a:ℚ) ≤ 5 * (((a + 4) / 5 : ℤ) : ℚ) := by exact_mod_cast key1
    linarith

/-- The partition step, written with euclidean division. -/
theorem partitionStep_ediv (o : SearchOptions) :
    partitionStep o = (o.LatestTime - o.EarliestTime + 4) / 5 := by
  unfold partitionStep
  rw [show ((PARTITION_COUNT : Int) - 1) = 4 by norm_num [PARTITION_COUNT],
    show (PARTITION_COUNT : Int) = 5 by norm_num [PARTITION_COUNT],
    Int.fdiv_eq_ediv _ (by norm_num)]

/-- The partition step is the rational ceiling the spec describes. -/
theorem partitionStep_ceil (o : SearchOptions) :
    partitionStep o = ⌈((o.LatestTime - o.EarliestTime : ℤ) : ℚ) / 5⌉ := by
  unfold partitionStep
  rw [show ((PARTITION_COUNT : Int) - 1) = 4 by norm_num [PARTITION_COUNT],
    show (PARTITION_COUNT : Int) = 5 by norm_num [PARTITION_COUNT]]
  exact fdiv_five_ceil _

/-- Five steps always reach at least the original latest bound. -/
theorem partitionStep_covers (o : SearchOptions) :
    o.LatestTime ≤ o.EarliestTime + 5 * partitionStep o := by
  rw [partitionStep_ediv]
  omega

/-- A polling round whose first status is done with no failure exits the
loop at once. -/
theorem pollLoop_first_done (polls : Nat → Except String SearchJobStatus) (sid : String)
    (st : SearchJobStatus) (fuel : Nat)
    (hpoll : polls 0 = Except.ok st) (hdone : st.IsDone = (true, none)) :
    pollLoop polls sid (fuel + 1) 0 = (some none, [SearchEffect.pollStatus sid]) := by
  simp [pollLoop, hpoll, hdone]

/-- A polling round whose first status yields an `IsDone` error aborts the
loop at once with that error. -/
theorem pollLoop_first_abort (polls : Nat → Except String SearchJobStatus) (sid : String)
    (st : SearchJobStatus) (fuel : Nat) (b : Bool) (e : String)
    (hpoll : polls 0 = Except.ok st) (herr : st.IsDone = (b, some e)) :
    pollLoop polls sid (fuel + 1) 0 = (some (some e), [SearchEffect.pollStatus sid]) := by
  simp [pollLoop, hpoll, herr]

/-- Unfolding of `Search` for a run whose job is created, reports done at
the first poll, and whose results fetch succeeds. -/
theorem Search_oneShot (env : SearchEnv) (searchQuery : String) (o : SearchOptions)
    (sid : String) (st : SearchJobStatus) (results : List Row) (fuel : Nat)
    (henv : env.create searchQuery (withDefaultMaxCount o) = Except.ok sid)
    (hpoll : env.polls sid 0 = Except.ok st)
    (hdone : st.IsDone = (true, none))
    (hfetch : env.fetch sid = Except.ok results) :
    Search env (fuel + 1) searchQuery o =
      (some (searchPartitionPhase env searchQuery (withDefaultMaxCount o) results).1,
        SearchEffect.createJob searchQuery (withDefaultMaxCount o) ::
          SearchEffect.pollStatus sid :: SearchEffect.fetchResults sid ::
            (searchPartitionPhase env searchQuery (withDefaultMaxCount o) results).2) := by
  simp [Search, henv, pollLoop_first_done (env.polls sid) sid st fuel hpoll hdone, hfetch]

/-- Closed form of the merge loop: the rows accumulated are those of the
maximal error-free prefix of the iteration order, and the error returned is
that of the first failing index found, if any. -/
theorem mergeLoop_spec (res : Nat → List Row) (errs : Nat → Option String) :
    ∀ (order : List Nat) (acc : List Row),
      mergeLoop res errs order acc =
        (acc ++ ((order.takeWhile fun i => (errs i).isNone).map res).flatten,
          (order.find? fun i => (errs i).isSome).bind errs) := by
  intro order
  induction order with
  | nil => intro acc; simp [mergeLoop]
  | cons idx rest ih =>
    intro acc
    cases herr : errs idx with
    | some e => simp [mergeLoop, herr, List.takeWhile_cons, List.find?_cons]
    | none => simp [mergeLoop, herr, List.takeWhile_cons, List.find?_cons, ih]

/-- The partition branch when the truncation-and-flags condition holds. -/
theorem searchPartitionPhase_pos (env : SearchEnv) (searchQuery : String)
    (eo : SearchOptions) (results : List Row)
    (hcond : ((results.length : Int) == eo.MaxCount && eo.AllowPartition &&
      eo.UseEarliestTime && eo.UseLatestTime) = true) :
    searchPartitionPhase env searchQuery eo results =
      (mergeLoop (partResults env searchQuery eo) (partErr env searchQuery eo) env.mapOrder [],
        (partitionWindows eo).map fun w =>
          SearchEffect.subSearchCall searchQuery (subOptions eo w)) := by
  simp [searchPartitionPhase, hcond]

/-- The partition branch when the condition fails: results pass through
untouched and no sub-search is launched. -/
theorem searchPartitionPhase_neg (env : SearchEnv) (searchQuery : String)
    (eo : SearchOptions) (results : List Row)
    (hcond : ((results.length : Int) == eo.MaxCount && eo.AllowPartition &&
      eo.UseEarliestTime && eo.UseLatestTime) = false) :
    searchPartitionPhase env searchQuery eo results = ((results, none), []) := by
  simp [searchPartitionPhase, hcond]

/-- Collecting the sub-search calls of the launch list built from a window
list recovers one call per window. -/
theorem subCallPairs_map_subSearchCall (searchQuery : String) (eo : SearchOptions)
    (ws : List (Int × Int)) :
    subCallPairs (ws.map fun w => SearchEffect.subSearchCall searchQuery (subOptions eo w)) =
      ws.map fun w => (searchQuery, subOptions eo w) := by
  induction ws with
  | nil => rfl
  | cons w ws ih => simp [subCallPairs, List.filterMap_cons] at ih ⊢; exact ih

/-- Claim C4 (code evaluated at the failing input): for a failed status
carrying the two diagnostic messages (FATAL, "first detail") and
(ERROR, "second detail"), `IsDone` returns an error message equal to the
rendering of the LAST message only, not the concatenation of all
diagnostic entries: the Go loop overwrites `errorMsg` on every iteration
instead of appending to it. -/
theorem isDone_failed_last_message_only :
    stFailedTwoMsgs.IsDone = (true, some "ERROR: second detail\n") ∧
      "ERROR: second detail\n" ≠ "FATAL: first detail\n" ++ "ERROR: second detail\n" := by
  constructor
  · rfl
  · decide

/-- Claim C10: a status payload whose entry list is empty makes `IsDone`
return `(false, nil)` - treated as still pending, neither an error nor
completion - and the polling loop keeps polling on a stream of such
payloads. -/
theorem empty_entry_still_pending (msgs : List StatusMessage)
    (polls : Nat → Except String SearchJobStatus) (sid : String)
    (hempty : ∀ n, ∃ ms, polls n = Except.ok (SearchJobStatus.mk ms [])) :
    (SearchJobStatus.mk msgs []).IsDone = (false, none) ∧
      ∀ fuel n0, (pollLoop polls sid fuel n0).1 = none := by
  constructor
  · rfl
  · intro fuel
    induction fuel with
    | zero => intro n0; rfl
    | succ fuel ih =>
      intro n0
      obtain ⟨ms, hm⟩ := hempty n0
      simp [pollLoop, hm, SearchJobStatus.IsDone, ih (n0 + 1)]

/-- Concrete instantiation of `empty_entry_still_pending` on the
environment whose every status payload has an empty entry list. -/
theorem empty_entry_still_pending_witness :
    (∀ n, ∃ ms, envEmptyEntry.polls "sid1" n = Except.ok (SearchJobStatus.mk ms [])) ∧
      (SearchJobStatus.mk [] []).IsDone = (false, none) ∧
      (pollLoop (envEmptyEntry.polls "sid1") "sid1" 3 0).1 = none :=
  ⟨fun _n => ⟨[], rfl⟩,
    (empty_entry_still_pending [] (envEmptyEntry.polls "sid1") "sid1" (fun _n => ⟨[], rfl⟩)).1,
    (empty_entry_still_pending [] (envEmptyEntry.polls "sid1") "sid1" (fun _n => ⟨[], rfl⟩)).2 3 0⟩

/-- Claim C5: a status whose first entry has `isFailed` set makes `IsDone`
report terminal with a non-nil error whatever the done flag holds, so the
polling loop stops and `Search` returns that error without fetching
results (no `fetchResults` effect is performed). -/
theorem search_aborts_on_failed_status (env : SearchEnv) (searchQuery : String)
    (o : SearchOptions) (sid : String) (st : SearchJobStatus)
    (ec : StatusEntryContent) (entryRest : List StatusEntryContent) (fuel : Nat)
    (henv : env.create searchQuery (withDefaultMaxCount o) = Except.ok sid)
    (hpoll : env.polls sid 0 = Except.ok st)
    (hentry : st.Entry = ec :: entryRest)
    (hfail : ec.isFailed = true) :
    ∃ e, st.IsDone = (true, some e) ∧
      (Search env (fuel + 1) searchQuery o).1 = some ([], some e) ∧
      SearchEffect.fetchResults sid ∉ (Search env (fuel + 1) searchQuery o).2 := by
  have hmsg : st.IsDone =
      (true, some (st.Messages.foldl (fun _errorMsg m => m.type ++ ": " ++ m.text ++ "\n") "")) := by
    simp [SearchJobStatus.IsDone, hentry, hfail]
  have hS : Search env (fuel + 1) searchQuery o =
      (some ([], some (st.Messages.foldl (fun _errorMsg m => m.type ++ ": " ++ m.text ++ "\n") "")),
        [SearchEffect.createJob searchQuery (withDefaultMaxCount o),
          SearchEffect.pollStatus sid]) := by
    simp [Search, henv, pollLoop_first_abort (env.polls sid) sid st fuel true _ hpoll hmsg]
  refine ⟨_, hmsg, ?_, ?_⟩
  · rw [hS]
  · rw [hS]
    simp

/-- Concrete instantiation of `search_aborts_on_failed_status` on the
environment whose job reports failure at the first poll. -/
theorem search_aborts_on_failed_status_witness :
    (envJobFailed.create "q" (withDefaultMaxCount optsP) = Except.ok "sid1") ∧
    (envJobFailed.polls "sid1" 0 = Except.ok stFailed) ∧
    (stFailed.Entry = [StatusEntryContent.mk false true]) ∧
    ((StatusEntryContent.mk false true).isFailed = true) ∧
    (∃ e, stFailed.IsDone = (true, some e) ∧
      (Search envJobFailed 1 "q" optsP).1 = some ([], some e) ∧
      SearchEffect.fetchResults "sid1" ∉ (Search envJobFailed 1 "q" optsP).2) :=
  ⟨rfl, rfl, rfl, rfl,
    search_aborts_on_failed_status envJobFailed "q" optsP "sid1" stFailed
      (StatusEntryContent.mk false true) [] 0 rfl rfl rfl rfl⟩

/-- Claim C8: `SearchAndExec` routes a search failure to the error handler
exactly once and never calls the success handler; on search success it
calls the success handler with the rows, routing a handler-reported error
to the error handler exactly once, and calling no error handler when the
success handler returns nil. -/
theorem searchAndExec_handler_routing (env : SearchEnv) (fuel : Nat) (searchQuery : String)
    (o : SearchOptions) (onSuccess : List Row → Option String) (results : List Row) :
    (∀ e, (Search env fuel searchQuery o).1 = some (results, some e) →
        SearchAndExec env fuel searchQuery o onSuccess = some [HandlerCall.onErrorCall e]) ∧
    (∀ e2, (Search env fuel searchQuery o).1 = some (results, none) →
        onSuccess results = some e2 →
        SearchAndExec env fuel searchQuery o onSuccess =
          some [HandlerCall.onSuccessCall results, HandlerCall.onErrorCall e2]) ∧
    ((Search env fuel searchQuery o).1 = some (results, none) →
        onSuccess results = none →
        SearchAndExec env fuel searchQuery o onSuccess =
          some [HandlerCall.onSuccessCall results]) := by
  refine ⟨?_, ?_, ?_⟩
  · intro e h
    simp [SearchAndExec, h]
  · intro e2 h h2
    simp [SearchAndExec, h, h2]
  · intro h h2
    simp [SearchAndExec, h, h2]

/-- Concrete instantiations of `searchAndExec_handler_routing`: a failing
search, a succeeding search with a failing success handler, and a
succeeding search with a succeeding handler. -/
theorem searchAndExec_handler_routing_witness :
    ((Search envFailPart 1 "q" optsP).1 = some ([rA], some "boom")) ∧
    SearchAndExec envFailPart 1 "q" optsP (fun _ => none) =
      some [HandlerCall.onErrorCall "boom"] ∧
    SearchAndExec envOk 1 "q" optsP (fun _ => some "handler boom") =
      some [HandlerCall.onSuccessCall [rA, rB], HandlerCall.onErrorCall "handler boom"] ∧
    SearchAndExec envOk 1 "q" optsP (fun _ => none) =
      some [HandlerCall.onSuccessCall [rA, rB]] :=
  ⟨by decide,
    (searchAndExec_handler_routing envFailPart 1 "q" optsP (fun _ => none) [rA]).1
      "boom" (by decide),
    (searchAndExec_handler_routing envOk 1 "q" optsP (fun _ => some "handler boom")
      [rA, rB]).2.1 "handler boom" (by decide) rfl,
    (searchAndExec_handler_routing envOk 1 "q" optsP (fun _ => none) [rA, rB]).2.2
      (by decide) rfl⟩

/-- Claim C9: while every status poll succeeds and reports neither done
nor failed, the polling loop never exits: after any number of iterations
it is still waiting, having slept a fixed `SEARCH_WAIT = 5` seconds
between consecutive polls with no backoff and no poll bound, and the
enclosing `Search` has not returned; and the loop exits only when some
poll errors or reports a status that is done or failed. -/
theorem search_polls_forever_when_pending (env : SearchEnv) (searchQuery : String)
    (o : SearchOptions) (sid : String)
    (henv : env.create searchQuery (withDefaultMaxCount o) = Except.ok sid)
    (hpending : ∀ n, ∃ st, env.polls sid n = Except.ok st ∧ st.IsDone = (false, none)) :
    (∀ fuel n0,
        pollLoop (env.polls sid) sid fuel n0 =
          (none, (List.replicate fuel
            [SearchEffect.pollStatus sid, SearchEffect.sleep SEARCH_WAIT]).flatten)) ∧
      SEARCH_WAIT = 5 ∧
      (∀ fuel, (Search env fuel searchQuery o).1 = none) ∧
      (∀ (polls2 : Nat → Except String SearchJobStatus) (fuel n0 : Nat) (r : Option String)
          (t : List SearchEffect), pollLoop polls2 sid fuel n0 = (some r, t) →
          ∃ n, (∃ e, polls2 n = Except.error e) ∨
            ∃ st, polls2 n = Except.ok st ∧ st.IsDone ≠ (false, none)) := by
  have hloop : ∀ fuel n0,
      pollLoop (env.polls sid) sid fuel n0 =
        (none, (List.replicate fuel
          [SearchEffect.pollStatus sid, SearchEffect.sleep SEARCH_WAIT]).flatten) := by
    intro fuel
    induction fuel with
    | zero => intro n0; rfl
    | succ fuel ih =>
      intro n0
      obtain ⟨st, h1, h2⟩ := hpending n0
      simp [pollLoop, h1, h2, ih (n0 + 1), List.replicate_succ]
  refine ⟨hloop, rfl, ?_, ?_⟩
  · intro fuel
    simp [Search, henv, hloop fuel 0]
  · intro polls2 fuel
    induction fuel with
    | zero =>
      intro n0 r t h
      simp [pollLoop] at h
    | succ fuel ih =>
      intro n0 r t h
      cases hp : polls2 n0 with
      | error e => exact ⟨n0, Or.inl ⟨e, hp⟩⟩
      | ok st =>
        rcases hd : st.IsDone with ⟨b, oe⟩
        cases oe with
        | some e =>
          exact ⟨n0, Or.inr ⟨st, hp, by rw [hd]; simp⟩⟩
        | none =>
          cases b with
          | true => exact ⟨n0, Or.inr ⟨st, hp, by rw [hd]; simp⟩⟩
          | false =>
            cases hrest : pollLoop polls2 sid fuel (n0 + 1) with
            | mk r0 t0 =>
              simp [pollLoop, hp, hd, hrest] at h
              exact ih (n0 + 1) r t0 (by rw [hrest, h.1])

/-- Concrete instantiation of `search_polls_forever_when_pending` on the
environment whose job reports pending at every poll. -/
theorem search_polls_forever_when_pending_witness :
    (envPending.create "q" (withDefaultMaxCount optsP) = Except.ok "sid1") ∧
    (∀ n, ∃ st, envPending.polls "sid1" n = Except.ok st ∧ st.IsDone = (false, none)) ∧
    pollLoop (envPending.polls "sid1") "sid1" 2 0 =
      (none, (List.replicate 2
        [SearchEffect.pollStatus "sid1", SearchEffect.sleep SEARCH_WAIT]).flatten) ∧
    SEARCH_WAIT = 5 ∧
    (Search envPending 3 "q" optsP).1 = none :=
  ⟨rfl, fun _n => ⟨stPending, rfl, rfl⟩,
    (search_polls_forever_when_pending envPending "q" optsP "sid1" rfl
      (fun _n => ⟨stPending, rfl, rfl⟩)).1 2 0,
    (search_polls_forever_when_pending envPending "q" optsP "sid1" rfl
      (fun _n => ⟨stPending, rfl, rfl⟩)).2.1,
    (search_polls_forever_when_pending envPending "q" optsP "sid1" rfl
      (fun _n => ⟨stPending, rfl, rfl⟩)).2.2.1 3⟩

/-- Collecting sub-search calls skips a job-creation effect. -/
theorem subCallPairs_cons_createJob (q2 : String) (o2 : SearchOptions) (t : List SearchEffect) :
    subCallPairs (SearchEffect.createJob q2 o2 :: t) = subCallPairs t := by
  simp [subCallPairs, List.filterMap_cons]

/-- Collecting sub-search calls skips a status-poll effect. -/
theorem subCallPairs_cons_pollStatus (sid : String) (t : List SearchEffect) :
    subCallPairs (SearchEffect.pollStatus sid :: t) = subCallPairs t := by
  simp [subCallPairs, List.filterMap_cons]

/-- Collecting sub-search calls skips a result-fetch effect. -/
theorem subCallPairs_cons_fetchResults (sid : String) (t : List SearchEffect) :
    subCallPairs (SearchEffect.fetchResults sid :: t) = subCallPairs t := by
  simp [subCallPairs, List.filterMap_cons]

/-- Collecting sub-search calls of an empty trace yields nothing. -/
theorem subCallPairs_nil : subCallPairs [] = [] := rfl

/-- Claim C1: when Search partitions a truncated result (row count equal to
the effective max count, partitioning allowed, both time bounds in use), it
launches exactly five sub-searches whose windows start at `EarliestTime`,
each window ending at its start plus the step `d`, each subsequent window
starting at the previous window's end (contiguous and non-overlapping),
where `d` is the rational ceiling of the window length divided by the fixed
partition count 5, and the last window's end reaches at least the original
`LatestTime` (the overshoot is not clamped). -/
theorem search_partition_window_layout (env : SearchEnv) (searchQuery : String)
    (o : SearchOptions) (sid : String) (st : SearchJobStatus) (results : List Row) (fuel : Nat)
    (henv : env.create searchQuery (withDefaultMaxCount o) = Except.ok sid)
    (hpoll : env.polls sid 0 = Except.ok st)
    (hdone : st.IsDone = (true, none))
    (hfetch : env.fetch sid = Except.ok results)
    (hlen : (results.length : Int) = (withDefaultMaxCount o).MaxCount)
    (hap : o.AllowPartition = true)
    (hue : o.UseEarliestTime = true)
    (hul : o.UseLatestTime = true) :
    subWindows (Search env (fuel + 1) searchQuery o).2 =
      [((withDefaultMaxCount o).EarliestTime,
        (withDefaultMaxCount o).EarliestTime + partitionStep (withDefaultMaxCount o)),
       ((withDefaultMaxCount o).EarliestTime + partitionStep (withDefaultMaxCount o),
        (withDefaultMaxCount o).EarliestTime + partitionStep (withDefaultMaxCount o) +
          partitionStep (withDefaultMaxCount o)),
       ((withDefaultMaxCount o).EarliestTime + partitionStep (withDefaultMaxCount o) +
          partitionStep (withDefaultMaxCount o),
        (withDefaultMaxCount o).EarliestTime + partitionStep (withDefaultMaxCount o) +
          partitionStep (withDefaultMaxCount o) + partitionStep (withDefaultMaxCount o)),
       ((withDefaultMaxCount o).EarliestTime + partitionStep (withDefaultMaxCount o) +
          partitionStep (withDefaultMaxCount o) + partitionStep (withDefaultMaxCount o),
        (withDefaultMaxCount o).EarliestTime + partitionStep (withDefaultMaxCount o) +
          partitionStep (withDefaultMaxCount o) + partitionStep (withDefaultMaxCount o) +
          partitionStep (withDefaultMaxCount o)),
       ((withDefaultMaxCount o).EarliestTime + partitionStep (withDefaultMaxCount o) +
          partitionStep (withDefaultMaxCount o) + partitionStep (withDefaultMaxCount o) +
          partitionStep (withDefaultMaxCount o),
        (withDefaultMaxCount o).EarliestTime + partitionStep (withDefaultMaxCount o) +
          partitionStep (withDefaultMaxCount o) + partitionStep (withDefaultMaxCount o) +
          partitionStep (withDefaultMaxCount o) + partitionStep (withDefaultMaxCount o))] ∧
    partitionStep (withDefaultMaxCount o) =
      ⌈(((withDefaultMaxCount o).LatestTime - (withDefaultMaxCount o).EarliestTime : ℤ) : ℚ) / 5⌉ ∧
    PARTITION_COUNT = 5 ∧
    (withDefaultMaxCount o).LatestTime ≤
      (withDefaultMaxCount o).EarliestTime + 5 * partitionStep (withDefaultMaxCount o) := by
  have hcond : ((results.length : Int) == (withDefaultMaxCount o).MaxCount &&
      (withDefaultMaxCount o).AllowPartition && (withDefaultMaxCount o).UseEarliestTime &&
      (withDefaultMaxCount o).UseLatestTime) = true := by
    simp [hlen, withDefaultMaxCount_AllowPartition, withDefaultMaxCount_UseEarliestTime,
      withDefaultMaxCount_UseLatestTime, hap, hue, hul]
  refine ⟨?_, partitionStep_ceil _, rfl, partitionStep_covers _⟩
  simp only [Search_oneShot env searchQuery o sid st results fuel henv hpoll hdone hfetch,
    searchPartitionPhase_pos env searchQuery _ results hcond, subWindows,
    subCallPairs_cons_createJob, subCallPairs_cons_pollStatus, subCallPairs_cons_fetchResults,
    subCallPairs_map_subSearchCall, List.map_map]
  simp [subOptions, partitionWindows_explicit]

/-- Concrete instantiation of `search_partition_window_layout`: max count
1, window from 0 to 10 seconds, step 2, windows (0,2) (2,4) (4,6) (6,8)
(8,10). -/
theorem search_partition_window_layout_witness :
    (envOk.create "q" (withDefaultMaxCount optsP) = Except.ok "sid1") ∧
    (envOk.polls "sid1" 0 = Except.ok stDone) ∧
    (stDone.IsDone = (true, none)) ∧
    (envOk.fetch "sid1" = Except.ok resultsP) ∧
    ((resultsP.length : Int) = (withDefaultMaxCount optsP).MaxCount) ∧
    (optsP.AllowPartition = true) ∧
    subWindows (Search envOk 1 "q" optsP).2 = [(0, 2), (2, 4), (4, 6), (6, 8), (8, 10)] :=
  ⟨rfl, rfl, rfl, rfl, rfl, rfl,
    (search_partition_window_layout envOk "q" optsP "sid1" stDone resultsP 0
      rfl rfl rfl rfl rfl rfl rfl rfl).1⟩

/-- Claim C2: `Search` performs partition fan-out exactly when the fetched
row count equals the effective max count (the caller's `MaxCount`, or
`DEFAULT_MAX_COUNT` when that is zero) and `AllowPartition`,
`UseEarliestTime` and `UseLatestTime` are all set; in every other case the
fetched rows are returned as-is with no error and no sub-search is
launched. -/
theorem search_partition_trigger_iff (env : SearchEnv) (searchQuery : String)
    (o : SearchOptions) (sid : String) (st : SearchJobStatus) (results : List Row) (fuel : Nat)
    (henv : env.create searchQuery (withDefaultMaxCount o) = Except.ok sid)
    (hpoll : env.polls sid 0 = Except.ok st)
    (hdone : st.IsDone = (true, none))
    (hfetch : env.fetch sid = Except.ok results) :
    ((subCallPairs (Search env (fuel + 1) searchQuery o).2 ≠ []) ↔
      ((results.length : Int) = (if o.MaxCount = 0 then DEFAULT_MAX_COUNT else o.MaxCount) ∧
        o.AllowPartition = true ∧ o.UseEarliestTime = true ∧ o.UseLatestTime = true)) ∧
    (((results.length : Int) ≠ (if o.MaxCount = 0 then DEFAULT_MAX_COUNT else o.MaxCount) ∨
        o.AllowPartition = false ∨ o.UseEarliestTime = false ∨ o.UseLatestTime = false) →
      (Search env (fuel + 1) searchQuery o).1 = some (results, none) ∧
        subCallPairs (Search env (fuel + 1) searchQuery o).2 = []) := by
  have hBool : (((results.length : Int) == (withDefaultMaxCount o).MaxCount &&
      (withDefaultMaxCount o).AllowPartition && (withDefaultMaxCount o).UseEarliestTime &&
      (withDefaultMaxCount o).UseLatestTime) = true) ↔
      ((results.length : Int) = (withDefaultMaxCount o).MaxCount ∧
        o.AllowPartition = true ∧ o.UseEarliestTime = true ∧ o.UseLatestTime = true) := by
    simp [Bool.and_eq_true, beq_iff_eq, withDefaultMaxCount_AllowPartition,
      withDefaultMaxCount_UseEarliestTime, withDefaultMaxCount_UseLatestTime, and_assoc]
  cases hcv : ((results.length : Int) == (withDefaultMaxCount o).MaxCount &&
      (withDefaultMaxCount o).AllowPartition && (withDefaultMaxCount o).UseEarliestTime &&
      (withDefaultMaxCount o).UseLatestTime) with
  | true =>
    obtain ⟨hlen, hap, hue, hul⟩ := hBool.mp hcv
    simp only [Search_oneShot env searchQuery o sid st results fuel henv hpoll hdone hfetch,
      searchPartitionPhase_pos env searchQuery _ results hcv,
      subCallPairs_cons_createJob, subCallPairs_cons_pollStatus,
      subCallPairs_cons_fetchResults, subCallPairs_map_subSearchCall]
    constructor
    · constructor
      · intro _
        exact ⟨hlen.trans (withDefaultMaxCount_MaxCount o), hap, hue, hul⟩
      · intro _
        simp [partitionWindows_explicit]
    · intro hneg
      rcases hneg with h | h | h | h
      · exact absurd (hlen.trans (withDefaultMaxCount_MaxCount o)) h
      · exact absurd h (by simp [hap])
      · exact absurd h (by simp [hue])
      · exact absurd h (by simp [hul])
  | false =>
    simp only [Search_oneShot env searchQuery o sid st results fuel henv hpoll hdone hfetch,
      searchPartitionPhase_neg env searchQuery _ results hcv,
      subCallPairs_cons_createJob, subCallPairs_cons_pollStatus,
      subCallPairs_cons_fetchResults, subCallPairs_nil]
    refine ⟨⟨fun h => absurd rfl h, fun hR => ?_⟩, fun _ => ⟨trivial, trivial⟩⟩
    have hTrig : (results.length : Int) = (withDefaultMaxCount o).MaxCount ∧
        o.AllowPartition = true ∧ o.UseEarliestTime = true ∧ o.UseLatestTime = true := by
      obtain ⟨h1, h2, h3, h4⟩ := hR
      exact ⟨h1.trans (withDefaultMaxCount_MaxCount o).symm, h2, h3, h4⟩
    exact Bool.noConfusion ((hBool.mpr hTrig).symm.trans hcv)

/-- Concrete instantiations of `search_partition_trigger_iff`: with the
trigger satisfied sub-searches are launched, and with partitioning disabled
the fetched rows come back untouched with no sub-search. -/
theorem search_partition_trigger_iff_witness :
    (envOk.create "q" (withDefaultMaxCount optsP) = Except.ok "sid1") ∧
    (subCallPairs (Search envOk 1 "q" optsP).2 ≠ []) ∧
    ((Search envOk 1 "q" (SearchOptions.mk 1 true 0 true 10 false)).1 =
        some (resultsP, none) ∧
      subCallPairs (Search envOk 1 "q" (SearchOptions.mk 1 true 0 true 10 false)).2 = []) :=
  ⟨rfl,
    (search_partition_trigger_iff envOk "q" optsP "sid1" stDone resultsP 0
      rfl rfl rfl rfl).1.mpr (by decide),
    (search_partition_trigger_iff envOk "q" (SearchOptions.mk 1 true 0 true 10 false)
      "sid1" stDone resultsP 0 rfl rfl rfl rfl).2 (by decide)⟩

/-- Claim C3 counterexample: in a partitioned run where partition 0
succeeds with one row and partition 1 fails with "boom" (map iteration
order 0,1,2,3,4), `Search` returns the failing partition's error TOGETHER
WITH the rows already merged from partition 0 - the result accompanying
the error does carry merged partition rows, because the merge loop returns
the accumulator built so far at the first failing index. -/
theorem search_error_with_leading_rows_cex :
    (Search envFailPart 1 "q" optsP).1 = some ([rA], some "boom") ∧
      ([rA] : List Row) ≠ [] := by
  constructor
  · decide
  · decide

/-- Claim C3 amended: a partitioned Search with a failing sub-search
returns the error of the first failing partition in the map-iteration
order, and the result returned alongside the error is the concatenation of
the rows of the partitions scanned before that failure (so partial rows
can accompany the error). -/
theorem search_error_first_in_iteration_order (env : SearchEnv) (searchQuery : String)
    (o : SearchOptions) (sid : String) (st : SearchJobStatus) (results : List Row) (fuel : Nat)
    (henv : env.create searchQuery (withDefaultMaxCount o) = Except.ok sid)
    (hpoll : env.polls sid 0 = Except.ok st)
    (hdone : st.IsDone = (true, none))
    (hfetch : env.fetch sid = Except.ok results)
    (hlen : (results.length : Int) = (withDefaultMaxCount o).MaxCount)
    (hap : o.AllowPartition = true)
    (hue : o.UseEarliestTime = true)
    (hul : o.UseLatestTime = true)
    (j : Nat) (e : String)
    (hfind : (env.mapOrder.find? fun i =>
        (partErr env searchQuery (withDefaultMaxCount o) i).isSome) = some j)
    (herr : partErr env searchQuery (withDefaultMaxCount o) j = some e) :
    (Search env (fuel + 1) searchQuery o).1 =
      some (((env.mapOrder.takeWhile fun i =>
            (partErr env searchQuery (withDefaultMaxCount o) i).isNone).map
          (partResults env searchQuery (withDefaultMaxCount o))).flatten,
        some e) := by
  have hcond : ((results.length : Int) == (withDefaultMaxCount o).MaxCount &&
      (withDefaultMaxCount o).AllowPartition && (withDefaultMaxCount o).UseEarliestTime &&
      (withDefaultMaxCount o).UseLatestTime) = true := by
    simp [hlen, withDefaultMaxCount_AllowPartition, withDefaultMaxCount_UseEarliestTime,
      withDefaultMaxCount_UseLatestTime, hap, hue, hul]
  simp only [Search_oneShot env searchQuery o sid st results fuel henv hpoll hdone hfetch,
    searchPartitionPhase_pos env searchQuery _ results hcond,
    mergeLoop_spec (partResults env searchQuery (withDefaultMaxCount o))
      (partErr env searchQuery (withDefaultMaxCount o)) env.mapOrder [],
    hfind]
  simp [herr]

/-- Concrete instantiation of `search_error_first_in_iteration_order` on
the environment whose second partition fails: the first failing index in
iteration order 0,1,2,3,4 is 1 and the rows of partition 0 accompany the
error. -/
theorem search_error_first_in_iteration_order_witness :
    ((envFailPart.mapOrder.find? fun i =>
        (partErr envFailPart "q" (withDefaultMaxCount optsP) i).isSome) = some 1) ∧
    (partErr envFailPart "q" (withDefaultMaxCount optsP) 1 = some "boom") ∧
    (Search envFailPart 1 "q" optsP).1 = some ([rA], some "boom") :=
  ⟨by decide, by decide,
    search_error_first_in_iteration_order envFailPart "q" optsP "sid1" stDone resultsP 0
      rfl rfl rfl rfl rfl rfl rfl rfl 1 "boom" (by decide) (by decide)⟩

/-- Claim C6 counterexample: the merge loop ranges over a Go map, whose
iteration order is unspecified; in the possible run that visits partition 1
before partition 0 the returned rows are partition 1's rows before
partition 0's, which differs from the concatenation in ascending
partition-index order. -/
theorem search_merge_not_ascending_cex :
    (Search envSwapped 1 "q" optsP).1 = some ([rB, rA], none) ∧
      (Search envSwapped 1 "q" optsP).1 ≠
        some (partResults envSwapped "q" (withDefaultMaxCount optsP) 0 ++
          partResults envSwapped "q" (withDefaultMaxCount optsP) 1 ++
          partResults envSwapped "q" (withDefaultMaxCount optsP) 2 ++
          partResults envSwapped "q" (withDefaultMaxCount optsP) 3 ++
          partResults envSwapped "q" (withDefaultMaxCount optsP) 4, none) := by
  constructor
  · decide
  · decide

/-- Claim C6 amended: when every sub-search succeeds, the returned result
is the concatenation of the partitions' row sequences in the (unspecified)
map-iteration order - a permutation of the partition indices, so the
returned rows are a permutation by blocks of the ascending concatenation,
with each partition's internal row order preserved; when sub-searches
fail, the error returned is that of the first failing partition in that
iteration order, not necessarily the lowest index. -/
theorem search_merge_in_iteration_order (env : SearchEnv) (searchQuery : String)
    (o : SearchOptions) (sid : String) (st : SearchJobStatus) (results : List Row) (fuel : Nat)
    (henv : env.create searchQuery (withDefaultMaxCount o) = Except.ok sid)
    (hpoll : env.polls sid 0 = Except.ok st)
    (hdone : st.IsDone = (true, none))
    (hfetch : env.fetch sid = Except.ok results)
    (hlen : (results.length : Int) = (withDefaultMaxCount o).MaxCount)
    (hap : o.AllowPartition = true)
    (hue : o.UseEarliestTime = true)
    (hul : o.UseLatestTime = true)
    (hperm : List.Perm env.mapOrder (List.range PARTITION_COUNT)) :
    ((∀ i ∈ env.mapOrder, partErr env searchQuery (withDefaultMaxCount o) i = none) →
      (Search env (fuel + 1) searchQuery o).1 =
        some ((env.mapOrder.map (partResults env searchQuery (withDefaultMaxCount o))).flatten,
          none) ∧
      List.Perm
        ((env.mapOrder.map (partResults env searchQuery (withDefaultMaxCount o))).flatten)
        (((List.range PARTITION_COUNT).map
          (partResults env searchQuery (withDefaultMaxCount o))).flatten)) ∧
    (∀ j, (env.mapOrder.find? fun i =>
        (partErr env searchQuery (withDefaultMaxCount o) i).isSome) = some j →
      ∃ rows, (Search env (fuel + 1) searchQuery o).1 =
        some (rows, partErr env searchQuery (withDefaultMaxCount o) j)) := by
  have hcond : ((results.length : Int) == (withDefaultMaxCount o).MaxCount &&
      (withDefaultMaxCount o).AllowPartition && (withDefaultMaxCount o).UseEarliestTime &&
      (withDefaultMaxCount o).UseLatestTime) = true := by
    simp [hlen, withDefaultMaxCount_AllowPartition, withDefaultMaxCount_UseEarliestTime,
      withDefaultMaxCount_UseLatestTime, hap, hue, hul]
  have hS : (Search env (fuel + 1) searchQuery o).1 =
      some (((env.mapOrder.takeWhile fun i =>
            (partErr env searchQuery (withDefaultMaxCount o) i).isNone).map
          (partResults env searchQuery (withDefaultMaxCount o))).flatten,
        (env.mapOrder.find? fun i =>
          (partErr env searchQuery (withDefaultMaxCount o) i).isSome).bind
          (partErr env searchQuery (withDefaultMaxCount o))) := by
    simp only [Search_oneShot env searchQuery o sid st results fuel henv hpoll hdone hfetch,
      searchPartitionPhase_pos env searchQuery _ results hcond,
      mergeLoop_spec (partResults env searchQuery (withDefaultMaxCount o))
        (partErr env searchQuery (withDefaultMaxCount o)) env.mapOrder []]
    simp
  constructor
  · intro hok
    have htake : (env.mapOrder.takeWhile fun i =>
        (partErr env searchQuery (withDefaultMaxCount o) i).isNone) = env.mapOrder :=
      List.takeWhile_eq_self_iff.mpr (fun i hi => by simp [hok i hi])
    have hfind : (env.mapOrder.find? fun i =>
        (partErr env searchQuery (withDefaultMaxCount o) i).isSome) = none :=
      List.find?_eq_none.mpr (fun i hi => by simp [hok i hi])
    constructor
    · rw [hS, htake, hfind]
      exact rfl
    · exact List.Perm.flatten
        (List.Perm.map (partResults env searchQuery (withDefaultMaxCount o)) hperm)
  · intro j hfind
    refine ⟨((env.mapOrder.takeWhile fun i =>
        (partErr env searchQuery (withDefaultMaxCount o) i).isNone).map
          (partResults env searchQuery (withDefaultMaxCount o))).flatten, ?_⟩
    rw [hS, hfind]
    exact rfl

/-- Concrete instantiation of `search_merge_in_iteration_order` on the
all-success environment with ascending iteration order. -/
theorem search_merge_in_iteration_order_witness :
    List.Perm envOk.mapOrder (List.range PARTITION_COUNT) ∧
    (∀ i ∈ envOk.mapOrder, partErr envOk "q" (withDefaultMaxCount optsP) i = none) ∧
    (Search envOk 1 "q" optsP).1 = some ([rA, rB], none) ∧
    List.Perm ([rA, rB] : List Row)
      (((List.range PARTITION_COUNT).map
        (partResults envOk "q" (withDefaultMaxCount optsP))).flatten) :=
  ⟨by decide, by decide,
    ((search_merge_in_iteration_order envOk "q" optsP "sid1" stDone resultsP 0
      rfl rfl rfl rfl rfl rfl rfl rfl (by decide)).1 (by decide)).1,
    ((search_merge_in_iteration_order envOk "q" optsP "sid1" stDone resultsP 0
      rfl rfl rfl rfl rfl rfl rfl rfl (by decide)).1 (by decide)).2⟩

/-- Claim C7: every sub-search is launched with the parent's query string
and a copy of the parent's (effective) options that agrees with the parent
on `MaxCount`, `UseEarliestTime`, `UseLatestTime` and `AllowPartition` and
differs only in `EarliestTime` and `LatestTime`, which carry the
sub-window bounds; the derivation is a pure copy (Go struct assignment)
and the parent's options value, as used for the enclosing job creation, is
unchanged. -/
theorem search_subsearch_options_frame (env : SearchEnv) (searchQuery : String)
    (o : SearchOptions) (sid : String) (st : SearchJobStatus) (results : List Row) (fuel : Nat)
    (henv : env.create searchQuery (withDefaultMaxCount o) = Except.ok sid)
    (hpoll : env.polls sid 0 = Except.ok st)
    (hdone : st.IsDone = (true, none))
    (hfetch : env.fetch sid = Except.ok results)
    (hlen : (results.length : Int) = (withDefaultMaxCount o).MaxCount)
    (hap : o.AllowPartition = true)
    (hue : o.UseEarliestTime = true)
    (hul : o.UseLatestTime = true) :
    subCallPairs (Search env (fuel + 1) searchQuery o).2 =
      (partitionWindows (withDefaultMaxCount o)).map
        (fun w => (searchQuery, subOptions (withDefaultMaxCount o) w)) ∧
    (∀ p ∈ subCallPairs (Search env (fuel + 1) searchQuery o).2,
        p.1 = searchQuery ∧
        p.2.MaxCount = (withDefaultMaxCount o).MaxCount ∧
        p.2.UseEarliestTime = (withDefaultMaxCount o).UseEarliestTime ∧
        p.2.UseLatestTime = (withDefaultMaxCount o).UseLatestTime ∧
        p.2.AllowPartition = (withDefaultMaxCount o).AllowPartition) ∧
    (∀ w : Int × Int, subOptions (withDefaultMaxCount o) w =
        SearchOptions.mk (withDefaultMaxCount o).MaxCount
          (withDefaultMaxCount o).UseEarliestTime w.1
          (withDefaultMaxCount o).UseLatestTime w.2
          (withDefaultMaxCount o).AllowPartition) ∧
    SearchEffect.createJob searchQuery (withDefaultMaxCount o) ∈
      (Search env (fuel + 1) searchQuery o).2 := by
  have hcond : ((results.length : Int) == (withDefaultMaxCount o).MaxCount &&
      (withDefaultMaxCount o).AllowPartition && (withDefaultMaxCount o).UseEarliestTime &&
      (withDefaultMaxCount o).UseLatestTime) = true := by
    simp [hlen, withDefaultMaxCount_AllowPartition, withDefaultMaxCount_UseEarliestTime,
      withDefaultMaxCount_UseLatestTime, hap, hue, hul]
  have hS := Search_oneShot env searchQuery o sid st results fuel henv hpoll hdone hfetch
  have hcalls : subCallPairs (Search env (fuel + 1) searchQuery o).2 =
      (partitionWindows (withDefaultMaxCount o)).map
        (fun w => (searchQuery, subOptions (withDefaultMaxCount o) w)) := by
    simp only [hS, searchPartitionPhase_pos env searchQuery _ results hcond,
      subCallPairs_cons_createJob, subCallPairs_cons_pollStatus,
      subCallPairs_cons_fetchResults, subCallPairs_map_subSearchCall]
  refine ⟨hcalls, ?_, fun w => rfl, ?_⟩
  · intro p hp
    rw [hcalls] at hp
    simp only [List.mem_map] at hp
    obtain ⟨w, hw, rfl⟩ := hp
    exact ⟨rfl, rfl, rfl, rfl, rfl⟩
  · simp only [hS]
    exact List.mem_cons_self _ _

/-- Concrete instantiation of `search_subsearch_options_frame` on the
all-success environment. -/
theorem search_subsearch_options_frame_witness :
    (envOk.create "q" (withDefaultMaxCount optsP) = Except.ok "sid1") ∧
    ((resultsP.length : Int) = (withDefaultMaxCount optsP).MaxCount) ∧
    subCallPairs (Search envOk 1 "q" optsP).2 =
      (partitionWindows (withDefaultMaxCount optsP)).map
        (fun w => ("q", subOptions (withDefaultMaxCount optsP) w)) :=
  ⟨rfl, rfl,
    (search_subsearch_options_frame envOk "q" optsP "sid1" stDone resultsP 0
      rfl rfl rfl rfl rfl rfl rfl rfl).1⟩
